import Mathlib

/-!
Shallow embedding of `src/static/security.js` (the `SecurityMonitor` object):
a client-side tamper-detection and one-shot revocation state machine.

Modelling conventions:
* JS numbers used as timestamps/durations are `Int` (millisecond clock values
  passed in explicitly in place of `Date.now()`).
* JS numbers used for pixel data and luminance statistics are `ℚ` (exact
  arithmetic; the thresholds compared against are integers, so the claims'
  test points are unaffected by float rounding).
* Side effects (DOM mutation, network sends, redirect) are reified as an
  `Effect` trace returned next to the successor state.
* The browser facts the monitor consults (`navigator.sendBeacon` presence,
  the CSRF meta tag, whether the destroy `fetch` settles successfully) are an
  `Env` record.
* `setInterval` registrations are booleans (`idleRunning`, `camRunning`) in
  the surrounding `Sys` record; a tick input on an unregistered timer is a
  no-op, modelling that the callback was never scheduled.
-/

namespace Encra

/-- One RGBA pixel of the sampled canvas image data (JS byte values). -/
structure Pixel where
  r : ℚ
  g : ℚ
  b : ℚ
  a : ℚ
deriving Repr, DecidableEq

/-- `SecurityMonitor.config`: immutable after `init` / `initVerification`. -/
structure Config where
  fileId : Option String
  destroyUrl : Option String
  homeUrl : Option String
  alertUrl : String
  idleTimeout : Int
  occlusionThreshold : Int
  disableIdle : Bool
  isVerificationPage : Bool
deriving Repr, DecidableEq

/-- The literal initial value of `SecurityMonitor.config`. -/
def defaultConfig : Config :=
  { fileId := none
    destroyUrl := none
    homeUrl := none
    alertUrl := "/alert"
    idleTimeout := 6000
    occlusionThreshold := 3000
    disableIdle := false
    isVerificationPage := false }

/-- `SecurityMonitor.state`. `cameraStream` abstracts the stream handle to
its presence; the stream contents are never inspected by the monitor. -/
structure MState where
  destroyed : Bool
  cameraStream : Bool
  lastActivity : Int
  occlusionStart : Option Int
  verified : Bool
  monitoringActive : Bool
  submitting : Bool
  cameraAccessFailed : Bool
deriving Repr, DecidableEq

/-- The literal initial value of `SecurityMonitor.state`; `lastActivity` is
`Date.now()` at script load, passed in as `now0`. -/
def initialState (now0 : Int) : MState :=
  { destroyed := false
    cameraStream := false
    lastActivity := now0
    occlusionStart := none
    verified := false
    monitoringActive := false
    submitting := false
    cameraAccessFailed := false }

/-- Browser environment facts consulted during destruction. -/
structure Env where
  hasBeacon : Bool
  csrf : Option String
  fetchOk : Bool
deriving Repr, DecidableEq

/-- Reified observable side effects, in program order. -/
inductive Effect where
  | borderRed
  | borderNone
  | stopTracks
  | lockdown (reason : String)
  | beaconSend (url : Option String) (reason : String)
  | fetchDestroy (url : Option String) (csrf : Option String) (reason : String) (ok : Bool)
  | redirect (url : Option String)
  | alertSend (url : String) (fileId : Option String) (kind : String) (reason : String)
  | camView (blocked : Bool)
deriving Repr, DecidableEq

/-- The revocation-sequence marker an effect carries, if any: `lockdown r`
is emitted exactly once per run of the destruction sequence. -/
def revocationOf : Effect → Option String
  | .lockdown r => some r
  | _ => none

/-- Reasons of all revocation-sequence invocations in a trace, in order. -/
def revocations (effs : List Effect) : List String :=
  effs.filterMap revocationOf

/-- The alert payload an effect carries, if any. -/
def alertOf : Effect → Option (String × String)
  | .alertSend _ _ k r => some (k, r)
  | _ => none

/-- (kind, reason) of all Reporting Channel deliveries in a trace. -/
def alerts (effs : List Effect) : List (String × String) :=
  effs.filterMap alertOf

/-- `SecurityMonitor.triggerDestruction(reason)` (security.js lines 76-116):
guarded one-shot transition to the destroyed state followed by the
revocation sequence. The trailing `redirect` is the `.finally` callback of
the destroy `fetch`, which runs whether the request succeeded or failed. -/
def triggerDestruction (cfg : Config) (env : Env) (s : MState) (reason : String) :
    MState × List Effect :=
  if s.destroyed || !s.monitoringActive || s.submitting then (s, [])
  else
    ({ s with destroyed := true },
      [Effect.borderRed]
        ++ (if s.cameraStream then [Effect.stopTracks] else [])
        ++ [Effect.lockdown reason]
        ++ (if env.hasBeacon then [Effect.beaconSend cfg.destroyUrl reason] else [])
        ++ [Effect.fetchDestroy cfg.destroyUrl env.csrf reason env.fetchOk,
            Effect.redirect cfg.homeUrl])

/-- `SecurityMonitor.sendAlert(type, reason)` (lines 118-133). -/
def sendAlert (cfg : Config) (s : MState) (kind reason : String) : List Effect :=
  if s.destroyed then []
  else [Effect.alertSend cfg.alertUrl cfg.fileId kind reason]

/-- `SecurityMonitor.resetIdle()` (lines 231-233). -/
def resetIdle (s : MState) (now : Int) : MState :=
  { s with lastActivity := now }

/-- Relevant fields of a keyboard event object. -/
structure KeyE where
  key : String
  ctrlKey : Bool
  shiftKey : Bool
  metaKey : Bool
deriving Repr, DecidableEq

/-- The reasons the four guard clauses of the `keydown` handler (lines
173-197) pass to `triggerDestruction`, in source order. A single event can
match several clauses (e.g. Meta+Shift+s matches both the save and the
snipping-tool clause); the handler then calls `triggerDestruction` once per
matching clause. -/
def keydownReasons (e : KeyE) : List String :=
  (if e.key == "F12" || (e.ctrlKey && e.shiftKey && (e.key == "I" || e.key == "C"))
    then ["DevTools Shortcut"] else [])
  ++ (if (e.ctrlKey || e.metaKey) && e.key == "p" then ["Print Attempt"] else [])
  ++ (if (e.ctrlKey || e.metaKey) && e.key == "s" then ["Save Attempt"] else [])
  ++ (if e.metaKey && e.shiftKey && e.key.toLower == "s"
    then ["Snipping Tool Attempt (Win+Shift+S)"] else [])

/-- Run `triggerDestruction` once per reason, threading the state, exactly
as the sequential `if` clauses of the `keydown` handler do. -/
def triggerAll (cfg : Config) (env : Env) (s : MState) : List String → MState × List Effect
  | [] => (s, [])
  | r :: rest =>
    let p := triggerDestruction cfg env s r
    let q := triggerAll cfg env p.1 rest
    (q.1, p.2 ++ q.2)

/-- The DOM/window events `bindEvents` (lines 135-220) listens to.
`visibilityChange` carries `document.hidden`; `click` carries whether the
event target is an anchor tag. -/
inductive Event where
  | submitEvt
  | submitButtonClick
  | visibilityChange (hidden : Bool)
  | windowBlur
  | keyup (e : KeyE)
  | keydown (e : KeyE)
  | contextmenu
  | selectstart
  | mousemove
  | mousedown
  | copyEvt
  | click (targetIsAnchor : Bool)
  | beforeunload
deriving Repr, DecidableEq

/-- The listeners installed by `bindEvents` (lines 135-220). `contextmenu`
and `selectstart` only call `preventDefault`, which has no modelled effect. -/
def handleEvent (cfg : Config) (env : Env) (s : MState) (now : Int) :
    Event → MState × List Effect
  | .submitEvt => ({ s with submitting := true }, [])
  | .submitButtonClick => ({ s with submitting := true }, [])
  | .visibilityChange hidden =>
      if hidden && !cfg.isVerificationPage then
        triggerDestruction cfg env s "Tab Switch / Minimize"
      else (s, [])
  | .windowBlur =>
      if !cfg.isVerificationPage then
        triggerDestruction cfg env s "Window Focus Lost"
      else (s, [])
  | .keyup e =>
      if e.key == "PrintScreen" then
        let a := sendAlert cfg s "screenshot" "PrintScreen Key"
        let p := triggerDestruction cfg env s "Screenshot Attempt"
        (p.1, a ++ p.2)
      else (s, [])
  | .keydown e =>
      let p := triggerAll cfg env s (keydownReasons e)
      (resetIdle p.1 now, p.2)
  | .contextmenu => (s, [])
  | .selectstart => (s, [])
  | .mousemove => (resetIdle s now, [])
  | .mousedown => (resetIdle s now, [])
  | .copyEvt => triggerDestruction cfg env s "Clipboard Copy"
  | .click targetIsAnchor =>
      if targetIsAnchor then ({ s with submitting := true }, []) else (s, [])
  | .beforeunload =>
      if !s.destroyed && !cfg.isVerificationPage then
        triggerDestruction cfg env s "Page Reload/Unload"
      else (s, [])

/-- `L = 0.299*R + 0.587*G + 0.114*B` (line 266). -/
def luminance (p : Pixel) : ℚ :=
  0.299 * p.r + 0.587 * p.g + 0.114 * p.b

/-- The loop `for (i = 0; i < frame.length; i += 4 * 4)` over RGBA byte data
reads every 4th pixel (byte stride 16 = 4 pixels); modelled on the pixel
list. -/
def sampleEvery4 : List Pixel → List Pixel
  | [] => []
  | [p] => [p]
  | [p, _] => [p]
  | [p, _, _] => [p]
  | p :: _ :: _ :: _ :: rest => p :: sampleEvery4 rest

/-- Sample mean and population variance of a list of luminances, via the
running `sum` / `sqSum` / `count` of lines 258-273. -/
def lumStats (ls : List ℚ) : ℚ × ℚ :=
  let count : ℚ := ls.length
  let sum := ls.sum
  let sqSum := (ls.map fun l => l * l).sum
  let mean := sum / count
  (mean, sqSum / count - mean * mean)

/-- Mean luminance of the sampled subset of a frame. -/
def frameMean (frame : List Pixel) : ℚ :=
  (lumStats ((sampleEvery4 frame).map luminance)).1

/-- Luminance variance of the sampled subset of a frame. -/
def frameVar (frame : List Pixel) : ℚ :=
  (lumStats ((sampleEvery4 frame).map luminance)).2

/-- `const isBlocked = (mean < 15) || (variance < 40)` (line 281). -/
def frameBlocked (frame : List Pixel) : Bool :=
  decide (frameMean frame < 15) || decide (frameVar frame < 40)

/-- JS truthiness of `!t.state.occlusionStart` (line 284): both `null` and
the number 0 are falsy, so the stamp is (re)taken not only when no run is
recorded but also when the recorded run start is the clock value 0. -/
def occlusionFalsy : Option Int → Bool
  | none => true
  | some t0 => t0 == 0

/-- The run-start value a sampling tick uses: line 284 stamps `Date.now()`
whenever the stored `occlusionStart` is JS-falsy (`null` or `0`), and keeps
the stored value otherwise. -/
def runStart (occ : Option Int) (now : Int) : Int :=
  if occlusionFalsy occ then now else occ.getD now

/-- One tick of the 500 ms occlusion sampling interval (lines 252-307),
applied to the frame currently visible to the canvas. The `camView` effect
models the unconditional preview-element update at the end of the tick. -/
def occlusionTick (cfg : Config) (env : Env) (s : MState) (now : Int)
    (frame : List Pixel) : MState × List Effect :=
  if s.destroyed then (s, [])
  else
    let isBlocked := frameBlocked frame
    if isBlocked then
      let start := runStart s.occlusionStart now
      let s1 := { s with occlusionStart := some start }
      let duration := now - start
      let warn := if 1000 < duration ∧ duration < 3000 then [Effect.borderRed] else []
      let p :=
        if duration > cfg.occlusionThreshold then
          triggerDestruction cfg env s1 "Camera Obstructed / Light Blocked"
        else (s1, [])
      (p.1, warn ++ p.2 ++ [Effect.camView true])
    else
      ({ s with occlusionStart := none }, [Effect.borderNone, Effect.camView false])

/-- One tick of the 1000 ms idle-check interval (lines 222-229). -/
def idleCheckTick (cfg : Config) (env : Env) (s : MState) (now : Int) :
    MState × List Effect :=
  if now - s.lastActivity > cfg.idleTimeout then
    triggerDestruction cfg env s "Idle Timeout (6s)"
  else (s, [])

/-- Whole-page system state: monitor config and state plus which of the two
`setInterval` loops have been registered. -/
structure Sys where
  cfg : Config
  st : MState
  idleRunning : Bool
  camRunning : Bool
deriving Repr, DecidableEq

/-- Everything the page can feed the monitor after initialization: a DOM
event at a wall-clock instant, a tick of either interval, or the resolution
of the `getUserMedia` promise (success lines 238-250, failure lines 309-314). -/
inductive Input where
  | ev (now : Int) (e : Event)
  | idleTick (now : Int)
  | camTick (now : Int) (frame : List Pixel)
  | cameraGranted
  | cameraFailed (errMsg : String)
deriving Repr, DecidableEq

/-- Dispatch one input. Interval ticks fire only if the corresponding
interval was registered; `cameraGranted` performs lines 239-241 and
registers the sampling interval; `cameraFailed` performs the catch block
of `initCamera` (lines 309-314). -/
def step (env : Env) (sys : Sys) : Input → Sys × List Effect
  | .ev now e =>
      let p := handleEvent sys.cfg env sys.st now e
      ({ sys with st := p.1 }, p.2)
  | .idleTick now =>
      if sys.idleRunning then
        let p := idleCheckTick sys.cfg env sys.st now
        ({ sys with st := p.1 }, p.2)
      else (sys, [])
  | .camTick now frame =>
      if sys.camRunning then
        let p := occlusionTick sys.cfg env sys.st now frame
        ({ sys with st := p.1 }, p.2)
      else (sys, [])
  | .cameraGranted =>
      ({ sys with
          st := { sys.st with cameraStream := true, monitoringActive := true }
          camRunning := true }, [])
  | .cameraFailed errMsg =>
      let a := sendAlert sys.cfg sys.st "camera"
        ("Camera Permission Denied / Error: " ++ errMsg)
      let p := triggerDestruction sys.cfg env sys.st "Camera Access Denied or Failed"
      ({ sys with st := p.1 }, a ++ p.2)

/-- Process a sequence of inputs, concatenating the effect traces. -/
def run (env : Env) (sys : Sys) : List Input → Sys × List Effect
  | [] => (sys, [])
  | i :: rest =>
      let p := step env sys i
      let q := run env p.1 rest
      (q.1, p.2 ++ q.2)

/-- `SecurityMonitor.init(fileId, destroyUrl, homeUrl, disableIdle)`
(lines 50-74): binds events, starts the idle interval unless disabled, and
requests the camera (whose resolution later arrives as a `cameraGranted` or
`cameraFailed` input; the sampling interval is registered only on grant). -/
def init (fileId destroyUrl homeUrl : String) (disableIdle : Bool) (now0 : Int) : Sys :=
  { cfg := { defaultConfig with
      fileId := some fileId
      destroyUrl := some destroyUrl
      homeUrl := some homeUrl
      disableIdle := disableIdle }
    st := initialState now0
    idleRunning := !disableIdle
    camRunning := false }

/-- `SecurityMonitor.initVerification(fileId, destroyUrl, homeUrl)`
(lines 39-48): binds events only; no idle interval, and the camera is
started manually by user interaction. -/
def initVerification (fileId destroyUrl homeUrl : String) (now0 : Int) : Sys :=
  { cfg := { defaultConfig with
      fileId := some fileId
      destroyUrl := some destroyUrl
      homeUrl := some homeUrl
      isVerificationPage := true }
    st := initialState now0
    idleRunning := false
    camRunning := false }

/-- A gray pixel: luminance weights sum to 1, so `luminance (gray v) = v`. -/
def gray (v : ℚ) : Pixel := ⟨v, v, v, 255⟩

/-- A 13-pixel frame whose every-4th-pixel subsample is the four gray
levels `a b c d` (indices 0, 4, 8, 12). -/
def spread4 (a b c d : ℚ) : List Pixel :=
  [gray a, gray 0, gray 0, gray 0,
   gray b, gray 0, gray 0, gray 0,
   gray c, gray 0, gray 0, gray 0,
   gray d]

/-- Sampled luminances 0,20,0,20: mean 10, variance 100. -/
def frameDark : List Pixel := spread4 0 20 0 20

/-- Sampled luminances 202,198,204,196: mean 200, variance 10. -/
def frameUniform : List Pixel := spread4 202 198 204 196

/-- Sampled luminances 210,190,210,190: mean 200, variance 100. -/
def frameClear : List Pixel := spread4 210 190 210 190

/-- An all-black one-pixel frame (mean 0, variance 0): blocked. -/
def frameBlack : List Pixel := [gray 0]

/-- The destruction reasons an event handler can pass to
`triggerDestruction`, in source order. -/
def eventReasons : Event → List String
  | .visibilityChange _ => ["Tab Switch / Minimize"]
  | .windowBlur => ["Window Focus Lost"]
  | .keyup _ => ["Screenshot Attempt"]
  | .keydown e => keydownReasons e
  | .copyEvt => ["Clipboard Copy"]
  | .beforeunload => ["Page Reload/Unload"]
  | _ => []

/-- The destruction reasons one input can pass to `triggerDestruction`. -/
def inputReasons : Input → List String
  | .ev _ e => eventReasons e
  | .idleTick _ => ["Idle Timeout (6s)"]
  | .camTick _ _ => ["Camera Obstructed / Light Blocked"]
  | .cameraGranted => []
  | .cameraFailed _ => ["Camera Access Denied or Failed"]

/-- A concrete browser environment used in concrete evaluations: beacon
API present, a CSRF token in the page, destroy fetch succeeding. -/
def envA : Env := ⟨true, some "token", true⟩

/-! ### Basic trace lemmas -/

@[simp] lemma revocations_nil : revocations [] = [] := rfl

@[simp] lemma alerts_nil : alerts [] = [] := rfl

@[simp] lemma revocations_append (a b : List Effect) :
    revocations (a ++ b) = revocations a ++ revocations b :=
  List.filterMap_append a b revocationOf

@[simp] lemma alerts_append (a b : List Effect) :
    alerts (a ++ b) = alerts a ++ alerts b :=
  List.filterMap_append a b alertOf

lemma revocations_sendAlert (cfg : Config) (s : MState) (k r : String) :
    revocations (sendAlert cfg s k r) = [] := by
  unfold sendAlert
  split <;> simp [revocations, revocationOf]

/-! ### `triggerDestruction` lemmas -/

lemma trig_noop (cfg : Config) (env : Env) (s : MState) (r : String)
    (h : s.destroyed = true ∨ s.monitoringActive = false ∨ s.submitting = true) :
    triggerDestruction cfg env s r = (s, []) := by
  rcases h with h | h | h <;> simp [triggerDestruction, h]

lemma trig_fire (cfg : Config) (env : Env) (s : MState) (r : String)
    (h1 : s.destroyed = false) (h2 : s.monitoringActive = true)
    (h3 : s.submitting = false) :
    (triggerDestruction cfg env s r).1 = { s with destroyed := true } ∧
    revocations (triggerDestruction cfg env s r).2 = [r] := by
  cases hcs : s.cameraStream <;> cases hb : env.hasBeacon <;>
    simp [triggerDestruction, h1, h2, h3, hcs, hb, revocations, revocationOf]

lemma trig_spec (cfg : Config) (env : Env) (s : MState) (r : String) :
    triggerDestruction cfg env s r = (s, []) ∨
    (s.destroyed = false ∧ s.monitoringActive = true ∧ s.submitting = false ∧
      (triggerDestruction cfg env s r).1 = { s with destroyed := true } ∧
      revocations (triggerDestruction cfg env s r).2 = [r]) := by
  rcases Bool.eq_false_or_eq_true s.destroyed with hd | hd
  · exact Or.inl (trig_noop cfg env s r (Or.inl hd))
  · rcases Bool.eq_false_or_eq_true s.monitoringActive with hm | hm
    · rcases Bool.eq_false_or_eq_true s.submitting with hs | hs
      · exact Or.inl (trig_noop cfg env s r (Or.inr (Or.inr hs)))
      · exact Or.inr ⟨hd, hm, hs, trig_fire cfg env s r hd hm hs⟩
    · exact Or.inl (trig_noop cfg env s r (Or.inr (Or.inl hm)))

lemma trig_monact (cfg : Config) (env : Env) (s : MState) (r : String) :
    (triggerDestruction cfg env s r).1.monitoringActive = s.monitoringActive := by
  unfold triggerDestruction
  split <;> rfl

lemma trig_destroyed_of_fst (cfg : Config) (env : Env) (s : MState) (r : String)
    (h : s.destroyed = true) : (triggerDestruction cfg env s r).1.destroyed = true := by
  rw [trig_noop cfg env s r (Or.inl h)]
  exact h

/-! ### `triggerAll` lemmas -/

lemma triggerAll_destroyed (cfg : Config) (env : Env) (s : MState)
    (rs : List String) (h : s.destroyed = true) :
    triggerAll cfg env s rs = (s, []) := by
  induction rs with
  | nil => rfl
  | cons r rest ih =>
      simp only [triggerAll, trig_noop cfg env s r (Or.inl h)]
      simp [ih]

lemma triggerAll_monact (cfg : Config) (env : Env) (s : MState) (rs : List String) :
    (triggerAll cfg env s rs).1.monitoringActive = s.monitoringActive := by
  induction rs generalizing s with
  | nil => rfl
  | cons r rest ih =>
      simp only [triggerAll]
      rw [ih]
      exact trig_monact cfg env s r

lemma triggerAll_spec (cfg : Config) (env : Env) (s : MState) (rs : List String) :
    triggerAll cfg env s rs = (s, []) ∨
    (s.destroyed = false ∧ s.monitoringActive = true ∧ s.submitting = false ∧
      (triggerAll cfg env s rs).1.destroyed = true ∧
      ∃ r ∈ rs, revocations (triggerAll cfg env s rs).2 = [r]) := by
  induction rs generalizing s with
  | nil => exact Or.inl rfl
  | cons r rest ih =>
      rcases trig_spec cfg env s r with h | ⟨h1, h2, h3, h4, h5⟩
      · rcases ih s with h' | ⟨h1, h2, h3, h4, r', hr', hrev⟩
        · left
          simp [triggerAll, h, h']
        · right
          refine ⟨h1, h2, h3, ?_, r', List.mem_cons_of_mem _ hr', ?_⟩
          · simp only [triggerAll, h]
            exact h4
          · simp only [triggerAll, h]
            simp [hrev]
      · right
        have hd' : (triggerDestruction cfg env s r).1.destroyed = true := by
          rw [h4]
        have hrest := triggerAll_destroyed cfg env
          (triggerDestruction cfg env s r).1 rest hd'
        refine ⟨h1, h2, h3, ?_, r, List.mem_cons_self r rest, ?_⟩
        · simp only [triggerAll, hrest]
          exact hd'
        · simp only [triggerAll, hrest]
          simp [h5]

/-! ### Step-level lemmas -/

lemma mstate_occ_eta (s : MState) (t0 : Int) (h : s.occlusionStart = some t0) :
    ({ s with occlusionStart := some t0 } : MState) = s := by
  cases s
  simp_all

@[simp] lemma runStart_none (now : Int) : runStart none now = now := rfl

lemma runStart_some (t0 now : Int) (h : t0 ≠ 0) : runStart (some t0) now = t0 := by
  simp [runStart, occlusionFalsy, h]

@[simp] lemma runStart_some_zero (now : Int) : runStart (some 0) now = now := rfl

lemma occlusionTick_destroyed (cfg : Config) (env : Env) (s : MState) (now : Int)
    (frame : List Pixel) (h : s.destroyed = true) :
    occlusionTick cfg env s now frame = (s, []) := by
  simp [occlusionTick, h]

lemma idleCheckTick_destroyed (cfg : Config) (env : Env) (s : MState) (now : Int)
    (h : s.destroyed = true) :
    idleCheckTick cfg env s now = (s, []) := by
  unfold idleCheckTick
  split
  · exact trig_noop cfg env s _ (Or.inl h)
  · rfl

lemma step_destroyed (env : Env) (sys : Sys) (i : Input) (h : sys.st.destroyed = true) :
    (step env sys i).2 = [] ∧ (step env sys i).1.st.destroyed = true := by
  cases i with
  | ev now e =>
      cases e <;>
        (simp [step, handleEvent, sendAlert, resetIdle, h,
          trig_noop _ _ _ _ (Or.inl h), triggerAll_destroyed _ _ _ _ h]
         try (split <;> simp [h, trig_noop _ _ _ _ (Or.inl h)]))
  | idleTick now =>
      by_cases hr : sys.idleRunning = true <;>
        simp [step, hr, idleCheckTick_destroyed _ _ _ _ h, h]
  | camTick now frame =>
      by_cases hr : sys.camRunning = true <;>
        simp [step, hr, occlusionTick_destroyed _ _ _ _ _ h, h]
  | cameraGranted => simp [step, h]
  | cameraFailed msg =>
      simp [step, sendAlert, h, trig_noop _ _ _ _ (Or.inl h)]

lemma step_idleRunning (env : Env) (sys : Sys) (i : Input) :
    (step env sys i).1.idleRunning = sys.idleRunning := by
  cases i with
  | ev now e => rfl
  | idleTick now => by_cases hr : sys.idleRunning = true <;> simp [step, hr]
  | camTick now frame => by_cases hr : sys.camRunning = true <;> simp [step, hr]
  | cameraGranted => rfl
  | cameraFailed msg => rfl

lemma occlusionTick_monact (cfg : Config) (env : Env) (s : MState) (now : Int)
    (frame : List Pixel) :
    (occlusionTick cfg env s now frame).1.monitoringActive = s.monitoringActive := by
  dsimp only [occlusionTick]
  split_ifs <;> first | rfl | exact trig_monact cfg env _ _

lemma idleCheckTick_monact (cfg : Config) (env : Env) (s : MState) (now : Int) :
    (idleCheckTick cfg env s now).1.monitoringActive = s.monitoringActive := by
  unfold idleCheckTick
  split
  · exact trig_monact cfg env _ _
  · rfl

lemma handleEvent_monact (cfg : Config) (env : Env) (s : MState) (now : Int)
    (e : Event) :
    (handleEvent cfg env s now e).1.monitoringActive = s.monitoringActive := by
  cases e with
  | keydown e =>
      dsimp only [handleEvent, resetIdle]
      exact triggerAll_monact cfg env s _
  | visibilityChange hidden =>
      dsimp only [handleEvent]
      split
      · exact trig_monact cfg env _ _
      · rfl
  | windowBlur =>
      dsimp only [handleEvent]
      split
      · exact trig_monact cfg env _ _
      · rfl
  | keyup e =>
      dsimp only [handleEvent]
      split
      · exact trig_monact cfg env _ _
      · rfl
  | copyEvt => exact trig_monact cfg env _ _
  | click b =>
      dsimp only [handleEvent]
      split
      · rfl
      · rfl
  | beforeunload =>
      dsimp only [handleEvent]
      split
      · exact trig_monact cfg env _ _
      · rfl
  | _ => rfl

lemma step_monact_pres (env : Env) (sys : Sys) (i : Input)
    (hi : i ≠ Input.cameraGranted) :
    (step env sys i).1.st.monitoringActive = sys.st.monitoringActive := by
  cases i with
  | ev now e => exact handleEvent_monact sys.cfg env sys.st now e
  | idleTick now =>
      by_cases hr : sys.idleRunning = true <;> simp [step, hr]
      exact idleCheckTick_monact sys.cfg env sys.st now
  | camTick now frame =>
      by_cases hr : sys.camRunning = true <;> simp [step, hr]
      exact occlusionTick_monact sys.cfg env sys.st now frame
  | cameraGranted => exact absurd rfl hi
  | cameraFailed msg => exact trig_monact sys.cfg env sys.st _

@[simp] lemma revocations_warn (c : Prop) [Decidable c] :
    revocations (if c then [Effect.borderRed] else []) = [] := by
  split <;> simp [revocations, revocationOf]

@[simp] lemma revocations_camView (b : Bool) (l : List Effect) :
    revocations (Effect.camView b :: l) = revocations l := by
  simp [revocations, List.filterMap_cons, revocationOf]

/-- One occlusion tick either leaves `destroyed` alone without revocation,
or performs the qualifying destruction with the obstruction reason. -/
lemma occlusionTick_spec (cfg : Config) (env : Env) (s : MState) (now : Int)
    (frame : List Pixel) :
    ((occlusionTick cfg env s now frame).1.destroyed = s.destroyed ∧
      revocations (occlusionTick cfg env s now frame).2 = []) ∨
    (s.destroyed = false ∧ s.monitoringActive = true ∧ s.submitting = false ∧
      (occlusionTick cfg env s now frame).1.destroyed = true ∧
      revocations (occlusionTick cfg env s now frame).2 =
        ["Camera Obstructed / Light Blocked"]) := by
  by_cases h1 : s.destroyed = true
  · left
    simp [occlusionTick, h1]
  · have h1' : s.destroyed = false := by simpa using h1
    by_cases h2 : frameBlocked frame = true
    · by_cases h4 : now - runStart s.occlusionStart now > cfg.occlusionThreshold
      · rcases trig_spec cfg env
          { s with occlusionStart := some (runStart s.occlusionStart now) }
          "Camera Obstructed / Light Blocked" with h | ⟨hh1, hh2, hh3, hh4, hh5⟩
        · left
          simp only [h1'] at h
          simp [occlusionTick, h1', h2, h4, h]
        · right
          simp only [h1'] at hh4 hh5
          refine ⟨by simpa using hh1, by simpa using hh2, by simpa using hh3, ?_, ?_⟩
          · simp [occlusionTick, h1', h2, h4, hh4]
          · simp [occlusionTick, h1', h2, h4, hh5]
      · left
        simp [occlusionTick, h1', h2, h4]
    · left
      simp [occlusionTick, h1', h2, revocations, revocationOf]

/-- One idle-check tick either does nothing or performs the qualifying
destruction with the idle reason. -/
lemma idleCheckTick_spec (cfg : Config) (env : Env) (s : MState) (now : Int) :
    ((idleCheckTick cfg env s now).1.destroyed = s.destroyed ∧
      revocations (idleCheckTick cfg env s now).2 = []) ∨
    (s.destroyed = false ∧ s.monitoringActive = true ∧ s.submitting = false ∧
      (idleCheckTick cfg env s now).1.destroyed = true ∧
      revocations (idleCheckTick cfg env s now).2 = ["Idle Timeout (6s)"]) := by
  unfold idleCheckTick
  split
  · rcases trig_spec cfg env s "Idle Timeout (6s)" with h | ⟨h1, h2, h3, h4, h5⟩
    · left
      simp [h]
    · right
      exact ⟨h1, h2, h3, by simp [h4], h5⟩
  · left
    exact ⟨rfl, rfl⟩

/-- Master per-input lemma: a step either leaves `destroyed` unchanged and
invokes no revocation, or it is the qualifying transition: it starts from a
live monitoring state, sets `destroyed`, and invokes the revocation sequence
exactly once, with one of the input's possible reasons. -/
lemma step_spec (env : Env) (sys : Sys) (i : Input) :
    ((step env sys i).1.st.destroyed = sys.st.destroyed ∧
      revocations (step env sys i).2 = []) ∨
    (sys.st.destroyed = false ∧ sys.st.monitoringActive = true ∧
      sys.st.submitting = false ∧ (step env sys i).1.st.destroyed = true ∧
      ∃ r ∈ inputReasons i, revocations (step env sys i).2 = [r]) := by
  cases i with
  | ev now e =>
      cases e with
      | visibilityChange hidden =>
          simp only [step, handleEvent]
          split
          · rcases trig_spec sys.cfg env sys.st "Tab Switch / Minimize" with h | ⟨h1, h2, h3, h4, h5⟩
            · left
              simp [h]
            · right
              exact ⟨h1, h2, h3, by simp [h4], _, by simp [inputReasons, eventReasons], h5⟩
          · left
            simp
      | windowBlur =>
          simp only [step, handleEvent]
          split
          · rcases trig_spec sys.cfg env sys.st "Window Focus Lost" with h | ⟨h1, h2, h3, h4, h5⟩
            · left
              simp [h]
            · right
              exact ⟨h1, h2, h3, by simp [h4], _, by simp [inputReasons, eventReasons], h5⟩
          · left
            simp
      | keyup ke =>
          simp only [step, handleEvent]
          split
          · rcases trig_spec sys.cfg env sys.st "Screenshot Attempt" with h | ⟨h1, h2, h3, h4, h5⟩
            · left
              simp [h, revocations_sendAlert]
            · right
              refine ⟨h1, h2, h3, by simp [h4], "Screenshot Attempt",
                by simp [inputReasons, eventReasons], ?_⟩
              simp [revocations_sendAlert, h5]
          · left
            simp
      | keydown ke =>
          simp only [step, handleEvent, resetIdle]
          rcases triggerAll_spec sys.cfg env sys.st (keydownReasons ke) with h | ⟨h1, h2, h3, h4, r, hr, hrev⟩
          · left
            simp [h]
          · right
            exact ⟨h1, h2, h3, by simp [h4], r, by simpa [inputReasons, eventReasons] using hr, hrev⟩
      | copyEvt =>
          simp only [step, handleEvent]
          rcases trig_spec sys.cfg env sys.st "Clipboard Copy" with h | ⟨h1, h2, h3, h4, h5⟩
          · left
            simp [h]
          · right
            exact ⟨h1, h2, h3, by simp [h4], _, by simp [inputReasons, eventReasons], h5⟩
      | beforeunload =>
          simp only [step, handleEvent]
          split
          · rcases trig_spec sys.cfg env sys.st "Page Reload/Unload" with h | ⟨h1, h2, h3, h4, h5⟩
            · left
              simp [h]
            · right
              exact ⟨h1, h2, h3, by simp [h4], _, by simp [inputReasons, eventReasons], h5⟩
          · left
            simp
      | click b =>
          simp only [step, handleEvent]
          split
          · left
            simp
          · left
            simp
      | submitEvt => exact Or.inl ⟨rfl, rfl⟩
      | submitButtonClick => exact Or.inl ⟨rfl, rfl⟩
      | contextmenu => exact Or.inl ⟨rfl, rfl⟩
      | selectstart => exact Or.inl ⟨rfl, rfl⟩
      | mousemove => exact Or.inl ⟨rfl, rfl⟩
      | mousedown => exact Or.inl ⟨rfl, rfl⟩
  | idleTick now =>
      by_cases hr : sys.idleRunning = true
      · simp only [step, hr, if_true]
        rcases idleCheckTick_spec sys.cfg env sys.st now with ⟨ha, hb⟩ | ⟨h1, h2, h3, h4, h5⟩
        · left
          exact ⟨ha, hb⟩
        · right
          exact ⟨h1, h2, h3, h4, "Idle Timeout (6s)", by simp [inputReasons], h5⟩
      · left
        simp [step, hr]
  | camTick now frame =>
      by_cases hr : sys.camRunning = true
      · simp only [step, hr, if_true]
        rcases occlusionTick_spec sys.cfg env sys.st now frame with ⟨ha, hb⟩ | ⟨h1, h2, h3, h4, h5⟩
        · left
          exact ⟨ha, hb⟩
        · right
          exact ⟨h1, h2, h3, h4, "Camera Obstructed / Light Blocked",
            by simp [inputReasons], h5⟩
      · left
        simp [step, hr]
  | cameraGranted => exact Or.inl ⟨rfl, rfl⟩
  | cameraFailed msg =>
      simp only [step]
      rcases trig_spec sys.cfg env sys.st "Camera Access Denied or Failed" with h | ⟨h1, h2, h3, h4, h5⟩
      · left
        simp [h, revocations_sendAlert]
      · right
        refine ⟨h1, h2, h3, by simp [h4], "Camera Access Denied or Failed",
          by simp [inputReasons], ?_⟩
        simp [revocations_sendAlert, h5]

/-! ### Run-level lemmas -/

lemma run_destroyed (env : Env) (sys : Sys) (is : List Input)
    (h : sys.st.destroyed = true) :
    (run env sys is).2 = [] ∧ (run env sys is).1.st.destroyed = true := by
  induction is generalizing sys with
  | nil => exact ⟨rfl, h⟩
  | cons i rest ih =>
      obtain ⟨he, hd⟩ := step_destroyed env sys i h
      obtain ⟨he', hd'⟩ := ih (step env sys i).1 hd
      constructor
      · simp [run, he, he']
      · simp [run, hd']

lemma run_rev_le (env : Env) (sys : Sys) (is : List Input) :
    (revocations (run env sys is).2).length ≤
      if sys.st.destroyed = true then 0 else 1 := by
  induction is generalizing sys with
  | nil => simp [run]
  | cons i rest ih =>
      by_cases h : sys.st.destroyed = true
      · obtain ⟨he, _⟩ := run_destroyed env sys (i :: rest) h
        simp [he, h]
      · have h' : sys.st.destroyed = false := by simpa using h
        rcases step_spec env sys i with ⟨ha, hb⟩ | ⟨_, _, _, h4, r, _, hrev⟩
        · have := ih (step env sys i).1
          rw [ha, h'] at this
          simp only [run, revocations_append, List.length_append, hb,
            List.length_nil, Nat.zero_add, h', if_false]
          simpa [h'] using this
        · obtain ⟨hres, _⟩ := run_destroyed env (step env sys i).1 rest h4
          simp [run, hrev, hres, h']

lemma run_monact (env : Env) (sys : Sys) (is : List Input)
    (h : sys.st.monitoringActive = false)
    (hg : Input.cameraGranted ∉ is) :
    (run env sys is).1.st.monitoringActive = false ∧
      (run env sys is).1.st.destroyed = sys.st.destroyed ∧
      revocations (run env sys is).2 = [] := by
  induction is generalizing sys with
  | nil => exact ⟨h, rfl, rfl⟩
  | cons i rest ih =>
      have hi : i ≠ Input.cameraGranted := by
        intro he
        exact hg (he ▸ List.mem_cons_self i rest)
      have hg' : Input.cameraGranted ∉ rest := fun hm => hg (List.mem_cons_of_mem i hm)
      have hpres := step_monact_pres env sys i hi
      have hstep : (step env sys i).1.st.monitoringActive = false := by
        rw [hpres]
        exact h
      rcases step_spec env sys i with ⟨ha, hb⟩ | ⟨_, hmon, _, _, _, _, _⟩
      · obtain ⟨ih1, ih2, ih3⟩ := ih (step env sys i).1 hstep hg'
        refine ⟨by simpa [run] using ih1, ?_, ?_⟩
        · simp only [run]
          rw [ih2, ha]
        · simp [run, hb, ih3]
      · rw [hmon] at h
        exact absurd h (by simp)

/-! ### Idle-reason lemmas -/

lemma keydownReasons_sub (e : KeyE) :
    ∀ r ∈ keydownReasons e,
      r ∈ ["DevTools Shortcut", "Print Attempt", "Save Attempt",
           "Snipping Tool Attempt (Win+Shift+S)"] := by
  intro r hr
  unfold keydownReasons at hr
  simp only [List.mem_append] at hr
  rcases hr with ((h | h) | h) | h <;> (split at h <;> simp_all)

lemma idle_not_eventReason (e : Event) :
    "Idle Timeout (6s)" ∉ eventReasons e := by
  cases e with
  | keydown ke =>
      intro h
      simp only [eventReasons] at h
      have := keydownReasons_sub ke _ h
      simp at this
  | _ => simp [eventReasons]

lemma step_no_idle_reason (env : Env) (sys : Sys) (i : Input)
    (h : sys.idleRunning = false) :
    "Idle Timeout (6s)" ∉ revocations (step env sys i).2 := by
  cases i with
  | idleTick now => simp [step, h]
  | ev now e =>
      rcases step_spec env sys (Input.ev now e) with ⟨_, hb⟩ | ⟨_, _, _, _, r, hr, hrev⟩
      · simp [hb]
      · rw [hrev]
        simp only [List.mem_singleton]
        intro he
        rw [← he] at hr
        exact idle_not_eventReason e hr
  | camTick now frame =>
      rcases step_spec env sys (Input.camTick now frame) with ⟨_, hb⟩ | ⟨_, _, _, _, r, hr, hrev⟩
      · simp [hb]
      · rw [hrev]
        simp only [List.mem_singleton]
        intro he
        rw [← he] at hr
        simp [inputReasons] at hr
  | cameraGranted =>
      rcases step_spec env sys Input.cameraGranted with ⟨_, hb⟩ | ⟨_, _, _, _, r, hr, hrev⟩
      · simp [hb]
      · simp [inputReasons] at hr
  | cameraFailed msg =>
      rcases step_spec env sys (Input.cameraFailed msg) with ⟨_, hb⟩ | ⟨_, _, _, _, r, hr, hrev⟩
      · simp [hb]
      · rw [hrev]
        simp only [List.mem_singleton]
        intro he
        rw [← he] at hr
        simp [inputReasons] at hr

lemma run_no_idle_reason (env : Env) (sys : Sys) (is : List Input)
    (h : sys.idleRunning = false) :
    "Idle Timeout (6s)" ∉ revocations (run env sys is).2 := by
  induction is generalizing sys with
  | nil => simp [run]
  | cons i rest ih =>
      have h' : (step env sys i).1.idleRunning = false := by
        rw [step_idleRunning]
        exact h
      intro hm
      simp only [run, revocations_append, List.mem_append] at hm
      rcases hm with hm | hm
      · exact step_no_idle_reason env sys i h hm
      · exact ih (step env sys i).1 h' hm

lemma step_idleTick_quiet (env : Env) (sys : Sys) (now : Int)
    (h : now - sys.st.lastActivity ≤ sys.cfg.idleTimeout) :
    step env sys (Input.idleTick now) = (sys, []) := by
  have hq : idleCheckTick sys.cfg env sys.st now = (sys.st, []) := by
    simp [idleCheckTick, not_lt.mpr h]
  by_cases hr : sys.idleRunning = true
  · simp only [step]
    rw [if_pos hr, hq]
  · simp [step, hr]

/-! ### Occlusion-run lemmas -/

lemma occlusionTick_continue (cfg : Config) (env : Env) (s : MState) (t0 now : Int)
    (frame : List Pixel) (hd : s.destroyed = false) (hocc : s.occlusionStart = some t0)
    (ht0 : t0 ≠ 0) (hb : frameBlocked frame = true)
    (hle : ¬(now - t0 > cfg.occlusionThreshold)) :
    (occlusionTick cfg env s now frame).1 = s ∧
      revocations (occlusionTick cfg env s now frame).2 = [] := by
  have he := mstate_occ_eta s t0 hocc
  rw [hd] at he
  have hrs := runStart_some t0 now ht0
  constructor
  · simp [occlusionTick, hd, hb, hocc, hrs, hle, he]
  · simp [occlusionTick, hd, hb, hocc, hrs, hle]

lemma occlusionTick_fire (cfg : Config) (env : Env) (s : MState) (t0 now : Int)
    (frame : List Pixel) (hd : s.destroyed = false) (hocc : s.occlusionStart = some t0)
    (ht0 : t0 ≠ 0) (hb : frameBlocked frame = true) (hm : s.monitoringActive = true)
    (hs : s.submitting = false) (hgt : now - t0 > cfg.occlusionThreshold) :
    (occlusionTick cfg env s now frame).1.destroyed = true ∧
      revocations (occlusionTick cfg env s now frame).2 =
        ["Camera Obstructed / Light Blocked"] := by
  have he := mstate_occ_eta s t0 hocc
  rw [hd] at he
  have hrs := runStart_some t0 now ht0
  have hfire := trig_fire cfg env s "Camera Obstructed / Light Blocked" hd hm hs
  constructor
  · simp only [occlusionTick, hd, hocc, hb]
    simp [hgt, hrs, he, hfire.1]
  · simp only [occlusionTick, hd, hocc, hb]
    simp [hgt, hrs, he, hfire.2]

/-- Core hysteresis invariant: starting inside a blocked run whose start
timestamp `t0` is recorded and nonzero (a 0 start is JS-falsy and would be
re-stamped), feeding only blocked frames, the run escalates if and only if
some tick exceeds the configured occlusion threshold. -/
lemma camRun_core (env : Env) (ts : List (Int × List Pixel)) :
    ∀ (sys : Sys) (t0 : Int),
      sys.st.occlusionStart = some t0 → t0 ≠ 0 → sys.st.destroyed = false →
      sys.st.monitoringActive = true → sys.st.submitting = false →
      sys.camRunning = true →
      (∀ p ∈ ts, frameBlocked p.2 = true) →
      (revocations (run env sys (ts.map fun p => Input.camTick p.1 p.2)).2 ≠ [] ↔
        ∃ p ∈ ts, p.1 - t0 > sys.cfg.occlusionThreshold) := by
  induction ts with
  | nil =>
      intro sys t0 _ _ _ _ _ _ _
      simp [run]
  | cons q rest ih =>
      intro sys t0 hocc ht0 hd hm hs hc hb
      obtain ⟨t, f⟩ := q
      have hbf : frameBlocked f = true := hb (t, f) (List.mem_cons_self (t, f) rest)
      have hbr : ∀ p ∈ rest, frameBlocked p.2 = true :=
        fun p hp => hb p (List.mem_cons_of_mem _ hp)
      by_cases hgt : t - t0 > sys.cfg.occlusionThreshold
      · obtain ⟨hf1, hf2⟩ :=
          occlusionTick_fire sys.cfg env sys.st t0 t f hd hocc ht0 hbf hm hs hgt
        have hstep2 : revocations (step env sys (Input.camTick t f)).2 =
            ["Camera Obstructed / Light Blocked"] := by
          simp only [step]
          rw [if_pos hc]
          exact hf2
        constructor
        · intro _
          exact ⟨(t, f), List.mem_cons_self _ _, hgt⟩
        · intro _
          simp only [List.map_cons, run, revocations_append]
          rw [hstep2]
          simp
      · obtain ⟨hq1, hq2⟩ :=
          occlusionTick_continue sys.cfg env sys.st t0 t f hd hocc ht0 hbf hgt
        have hstep1 : (step env sys (Input.camTick t f)).1 = sys := by
          simp only [step]
          rw [if_pos hc, hq1]
        have hstep2 : revocations (step env sys (Input.camTick t f)).2 = [] := by
          simp only [step]
          rw [if_pos hc]
          exact hq2
        simp only [List.map_cons, run, revocations_append, hstep2, List.nil_append]
        rw [hstep1]
        rw [ih sys t0 hocc ht0 hd hm hs hc hbr]
        constructor
        · rintro ⟨p, hp, hP⟩
          exact ⟨p, List.mem_cons_of_mem _ hp, hP⟩
        · rintro ⟨p, hp, hP⟩
          rcases List.mem_cons.mp hp with heq | hp'
          · rw [heq] at hP
            exact absurd hP hgt
          · exact ⟨p, hp', hP⟩

/-- Full-run hysteresis: from a fresh (no recorded run) state, an
all-blocked run of ticks starting at a nonzero clock value `t0` escalates
exactly when some later tick exceeds the threshold relative to `t0`. -/
lemma camRun_fresh (env : Env) (t0 : Int) (f0 : List Pixel)
    (rest : List (Int × List Pixel)) :
    ∀ (sys : Sys), sys.st.occlusionStart = none → t0 ≠ 0 →
      sys.st.destroyed = false →
      sys.st.monitoringActive = true → sys.st.submitting = false →
      sys.camRunning = true → 0 ≤ sys.cfg.occlusionThreshold →
      (∀ p ∈ (t0, f0) :: rest, frameBlocked p.2 = true) →
      (revocations (run env sys
          (((t0, f0) :: rest).map fun p => Input.camTick p.1 p.2)).2 ≠ [] ↔
        ∃ p ∈ rest, p.1 - t0 > sys.cfg.occlusionThreshold) := by
  intro sys hocc ht0 hd hm hs hc hθ hb
  have hbf : frameBlocked f0 = true := hb (t0, f0) (List.mem_cons_self (t0, f0) rest)
  have hbr : ∀ p ∈ rest, frameBlocked p.2 = true :=
    fun p hp => hb p (List.mem_cons_of_mem _ hp)
  have hz : ¬sys.cfg.occlusionThreshold < 0 := not_lt.mpr hθ
  have hfirst1 : (occlusionTick sys.cfg env sys.st t0 f0).1 =
      { sys.st with occlusionStart := some t0 } := by
    simp [occlusionTick, hd, hbf, hocc, hz]
  have hfirst2 : revocations (occlusionTick sys.cfg env sys.st t0 f0).2 = [] := by
    simp [occlusionTick, hd, hbf, hocc, hz]
  have hstep1 : (step env sys (Input.camTick t0 f0)).1 =
      { sys with st := { sys.st with occlusionStart := some t0 } } := by
    simp only [step]
    rw [if_pos hc, hfirst1]
  have hstep2 : revocations (step env sys (Input.camTick t0 f0)).2 = [] := by
    simp only [step]
    rw [if_pos hc]
    exact hfirst2
  simp only [List.map_cons, run, revocations_append, hstep2, List.nil_append]
  rw [hstep1]
  exact camRun_core env rest
    { sys with st := { sys.st with occlusionStart := some t0 } } t0 rfl ht0 hd hm hs hc hbr

lemma trig_occ (cfg : Config) (env : Env) (s : MState) (r : String) :
    (triggerDestruction cfg env s r).1.occlusionStart = s.occlusionStart := by
  unfold triggerDestruction
  split <;> rfl

/-! ### Claim theorems -/

/-- C1: `triggerDestruction` invokes the revocation sequence at most once
per page lifetime. It is a no-op whenever `destroyed` is true,
`monitoringActive` is false, or `submitting` is true; otherwise it sets
`destroyed` and runs the revocation sequence exactly once with the given
reason; and along any sequence of sensor events and timer ticks, at most
one revocation-sequence invocation occurs. -/
theorem claim1_trigger_destruction_at_most_once :
    (∀ (cfg : Config) (env : Env) (s : MState) (r : String),
        s.destroyed = true ∨ s.monitoringActive = false ∨ s.submitting = true →
        triggerDestruction cfg env s r = (s, [])) ∧
    (∀ (cfg : Config) (env : Env) (s : MState) (r : String),
        s.destroyed = false → s.monitoringActive = true → s.submitting = false →
        (triggerDestruction cfg env s r).1.destroyed = true ∧
          revocations (triggerDestruction cfg env s r).2 = [r]) ∧
    (∀ (env : Env) (sys : Sys) (is : List Input),
        (revocations (run env sys is).2).length ≤ 1) := by
  refine ⟨trig_noop, ?_, ?_⟩
  · intro cfg env s r h1 h2 h3
    have h := trig_fire cfg env s r h1 h2 h3
    exact ⟨by rw [h.1], h.2⟩
  · intro env sys is
    have h := run_rev_le env sys is
    refine le_trans h ?_
    split <;> omega

/-- C1 witness: a no-op call on the pre-consent initial state, and a
qualifying call that destroys and revokes exactly once. -/
theorem claim1_witness :
    (initialState 0).monitoringActive = false ∧
    triggerDestruction defaultConfig envA (initialState 0) "Clipboard Copy" =
      (initialState 0, []) ∧
    ({ initialState 0 with monitoringActive := true } : MState).destroyed = false ∧
    (triggerDestruction defaultConfig envA
        { initialState 0 with monitoringActive := true } "Clipboard Copy").1.destroyed =
      true ∧
    revocations (triggerDestruction defaultConfig envA
        { initialState 0 with monitoringActive := true } "Clipboard Copy").2 =
      ["Clipboard Copy"] ∧
    (revocations (run envA (init "f" "/d" "/h" false 0)
        [Input.ev 1 Event.copyEvt, Input.ev 2 Event.copyEvt]).2).length ≤ 1 :=
  ⟨rfl,
   claim1_trigger_destruction_at_most_once.1 defaultConfig envA (initialState 0)
     "Clipboard Copy" (Or.inr (Or.inl rfl)),
   rfl,
   (claim1_trigger_destruction_at_most_once.2.1 defaultConfig envA
     { initialState 0 with monitoringActive := true } "Clipboard Copy" rfl rfl rfl).1,
   (claim1_trigger_destruction_at_most_once.2.1 defaultConfig envA
     { initialState 0 with monitoringActive := true } "Clipboard Copy" rfl rfl rfl).2,
   claim1_trigger_destruction_at_most_once.2.2 envA (init "f" "/d" "/h" false 0)
     [Input.ev 1 Event.copyEvt, Input.ev 2 Event.copyEvt]⟩

/-- C2 (code bug evaluation): in default mode, when camera acquisition
fails, the monitor sends exactly one camera alert but performs NO
revocation: `triggerDestruction` returns early because `monitoringActive`
is still false (it is set only in the camera success branch), so the state
is not destroyed — contradicting the claim and the code's own
`STRICT MODE: Destroy if camera fails` comment. -/
theorem claim2_camera_failure_no_revocation :
    alerts (step envA (init "f" "/destroy" "/home" false 0)
        (Input.cameraFailed "NotAllowedError")).2 =
      [("camera", "Camera Permission Denied / Error: NotAllowedError")] ∧
    revocations (step envA (init "f" "/destroy" "/home" false 0)
        (Input.cameraFailed "NotAllowedError")).2 = [] ∧
    (step envA (init "f" "/destroy" "/home" false 0)
        (Input.cameraFailed "NotAllowedError")).1.st.destroyed = false :=
  ⟨rfl, rfl, rfl⟩

/-- C3 counterexample: a default-mode state that is neither destroyed nor
submitting, where a tab-hidden event nevertheless triggers no revocation —
camera consent has not yet been granted, so `monitoringActive` is false and
`triggerDestruction` returns early. This refutes the claim's default-mode
half as stated. -/
theorem claim3_counterexample :
    (init "f" "/destroy" "/home" false 0).cfg.isVerificationPage = false ∧
    (init "f" "/destroy" "/home" false 0).st.destroyed = false ∧
    (init "f" "/destroy" "/home" false 0).st.submitting = false ∧
    step envA (init "f" "/destroy" "/home" false 0)
        (Input.ev 5 (Event.visibilityChange true)) =
      (init "f" "/destroy" "/home" false 0, []) :=
  ⟨rfl, rfl, rfl, rfl⟩

/-- C3 (amended): in verification mode, tab-hidden, window-blur and
page-unload events are exact no-ops; in default mode, every tab-hidden or
window-blur event triggers revocation unless the state is already
destroyed, `submitting` is set, or monitoring is not yet active. -/
theorem claim3_visibility_triggers_amended :
    (∀ (env : Env) (sys : Sys) (now : Int) (hidden : Bool),
        sys.cfg.isVerificationPage = true →
        step env sys (Input.ev now (Event.visibilityChange hidden)) = (sys, []) ∧
        step env sys (Input.ev now Event.windowBlur) = (sys, []) ∧
        step env sys (Input.ev now Event.beforeunload) = (sys, [])) ∧
    (∀ (env : Env) (sys : Sys) (now : Int),
        sys.cfg.isVerificationPage = false → sys.st.destroyed = false →
        sys.st.monitoringActive = true → sys.st.submitting = false →
        (revocations (step env sys (Input.ev now (Event.visibilityChange true))).2 =
            ["Tab Switch / Minimize"] ∧
          (step env sys (Input.ev now (Event.visibilityChange true))).1.st.destroyed =
            true) ∧
        (revocations (step env sys (Input.ev now Event.windowBlur)).2 =
            ["Window Focus Lost"] ∧
          (step env sys (Input.ev now Event.windowBlur)).1.st.destroyed = true)) := by
  constructor
  · intro env sys now hidden h
    refine ⟨?_, ?_, ?_⟩ <;> simp [step, handleEvent, h]
  · intro env sys now hv hd hm hs
    have h1 := trig_fire sys.cfg env sys.st "Tab Switch / Minimize" hd hm hs
    have h2 := trig_fire sys.cfg env sys.st "Window Focus Lost" hd hm hs
    refine ⟨⟨?_, ?_⟩, ⟨?_, ?_⟩⟩ <;>
      simp [step, handleEvent, hv, h1.1, h1.2, h2.1, h2.2]

/-- C3 amended witness: verification-mode no-op at a concrete state, and a
default-mode monitoring state where tab-hidden destroys. -/
theorem claim3_amended_witness :
    (initVerification "f" "/d" "/h" 0).cfg.isVerificationPage = true ∧
    step envA (initVerification "f" "/d" "/h" 0)
        (Input.ev 3 (Event.visibilityChange true)) =
      (initVerification "f" "/d" "/h" 0, []) ∧
    revocations (step envA
        { init "f" "/d" "/h" false 0 with
            st := { initialState 0 with monitoringActive := true } }
        (Input.ev 3 (Event.visibilityChange true))).2 = ["Tab Switch / Minimize"] :=
  ⟨rfl,
   (claim3_visibility_triggers_amended.1 envA (initVerification "f" "/d" "/h" 0)
     3 true rfl).1,
   ((claim3_visibility_triggers_amended.2 envA
     { init "f" "/d" "/h" false 0 with
         st := { initialState 0 with monitoringActive := true } }
     3 rfl rfl rfl rfl).1).1⟩

/-- C4: a sampled frame is classified blocked exactly when its mean
luminance is below 15 or its luminance variance is below 40; the synthetic
frame with mean 10 / variance 100 is blocked (mean rule), mean 200 /
variance 10 is blocked (variance rule), and mean 200 / variance 100 is
clear. -/
theorem claim4_occlusion_classification :
    (∀ frame : List Pixel,
        frameBlocked frame = true ↔
          (frameMean frame < 15 ∨ frameVar frame < 40)) ∧
    (frameMean frameDark = 10 ∧ frameVar frameDark = 100 ∧
      frameBlocked frameDark = true) ∧
    (frameMean frameUniform = 200 ∧ frameVar frameUniform = 10 ∧
      frameBlocked frameUniform = true) ∧
    (frameMean frameClear = 200 ∧ frameVar frameClear = 100 ∧
      frameBlocked frameClear = false) := by
  refine ⟨?_, ⟨?_, ?_, ?_⟩, ⟨?_, ?_, ?_⟩, ⟨?_, ?_, ?_⟩⟩
  · intro frame
    simp [frameBlocked]
  all_goals
    norm_num [frameDark, frameUniform, frameClear, frameMean, frameVar,
      frameBlocked, spread4, gray, sampleEvery4, lumStats, luminance]

/-- C5 counterexample: a blocked run whose recorded start is the clock
value 0. Line 284's `if (!t.state.occlusionStart)` treats the number 0 as
falsy, so the next blocked tick at 4000 ms RE-STAMPS the run start to 4000
(instead of keeping 0) and computes duration 0: no escalation occurs even
though the run's duration from its first blocked frame (4000 ms) exceeds
the 3000 ms threshold — refuting the claim as stated over all tick
sequences. The live two-tick run from a fresh state shows the same:
blocked ticks at 0 and 4000 produce no revocation at all. -/
theorem claim5_counterexample :
    frameBlocked frameBlack = true ∧
    ((4000 : Int) - 0 > defaultConfig.occlusionThreshold) ∧
    (occlusionTick defaultConfig envA
        { initialState 0 with monitoringActive := true, occlusionStart := some 0 }
        4000 frameBlack).1.occlusionStart = some 4000 ∧
    revocations (occlusionTick defaultConfig envA
        { initialState 0 with monitoringActive := true, occlusionStart := some 0 }
        4000 frameBlack).2 = [] ∧
    (occlusionTick defaultConfig envA
        { initialState 0 with monitoringActive := true, occlusionStart := some 0 }
        4000 frameBlack).1.destroyed = false ∧
    revocations (run envA
        { init "f" "/d" "/h" false 0 with
            st := { initialState 0 with monitoringActive := true },
            camRunning := true }
        [Input.camTick 0 frameBlack, Input.camTick 4000 frameBlack]).2 = [] := by
  have hblack : frameBlocked frameBlack = true := by
    simp [frameBlocked, frameMean, frameVar, frameBlack, gray, sampleEvery4,
      lumStats, luminance]
  refine ⟨hblack, by decide, ?_, ?_, ?_, ?_⟩ <;>
    simp [run, step, occlusionTick, runStart, occlusionFalsy, hblack,
      defaultConfig, initialState, init, revocations, revocationOf]

/-- C5 (amended): occlusion hysteresis for runs whose recorded start
timestamp is nonzero (real `Date.now()` values are positive; the clock
value 0 is JS-falsy at line 284 and would be re-stamped). The first blocked
frame records the tick's timestamp, a later blocked frame keeps the nonzero
recorded start, a clear frame resets it to none. A tick whose run duration
does not exceed the configured threshold never escalates, and over an
all-blocked run from a fresh state starting at a nonzero clock value,
escalation occurs exactly when some tick exceeds the threshold relative to
the run start — applying the equivalence to each prefix of the run places
the single escalation (unique by the at-most-once invariant) at the first
exceeding tick. -/
theorem claim5_occlusion_hysteresis :
    (∀ (cfg : Config) (env : Env) (s : MState) (now : Int) (frame : List Pixel),
        s.destroyed = false → s.occlusionStart = none → frameBlocked frame = true →
        (occlusionTick cfg env s now frame).1.occlusionStart = some now) ∧
    (∀ (cfg : Config) (env : Env) (s : MState) (t0 now : Int) (frame : List Pixel),
        s.destroyed = false → s.occlusionStart = some t0 → t0 ≠ 0 →
        frameBlocked frame = true →
        (occlusionTick cfg env s now frame).1.occlusionStart = some t0) ∧
    (∀ (cfg : Config) (env : Env) (s : MState) (now : Int) (frame : List Pixel),
        s.destroyed = false → frameBlocked frame = false →
        (occlusionTick cfg env s now frame).1.occlusionStart = none) ∧
    (∀ (cfg : Config) (env : Env) (s : MState) (t0 now : Int) (frame : List Pixel),
        s.destroyed = false → s.occlusionStart = some t0 → t0 ≠ 0 →
        frameBlocked frame = true →
        ¬(now - t0 > cfg.occlusionThreshold) →
        revocations (occlusionTick cfg env s now frame).2 = [] ∧
          (occlusionTick cfg env s now frame).1.destroyed = false) ∧
    (∀ (env : Env) (sys : Sys) (t0 : Int) (f0 : List Pixel)
        (rest : List (Int × List Pixel)),
        sys.st.occlusionStart = none → t0 ≠ 0 → sys.st.destroyed = false →
        sys.st.monitoringActive = true → sys.st.submitting = false →
        sys.camRunning = true → 0 ≤ sys.cfg.occlusionThreshold →
        (∀ p ∈ (t0, f0) :: rest, frameBlocked p.2 = true) →
        (revocations (run env sys (((t0, f0) :: rest).map
            fun p => Input.camTick p.1 p.2)).2 ≠ [] ↔
          ∃ p ∈ rest, p.1 - t0 > sys.cfg.occlusionThreshold)) := by
  refine ⟨?_, ?_, ?_, ?_, ?_⟩
  · intro cfg env s now frame hd hocc hb
    simp only [occlusionTick, hd, hocc, hb]
    simp only [Bool.false_eq_true, if_false, if_true, runStart_none]
    split_ifs <;> simp [trig_occ]
  · intro cfg env s t0 now frame hd hocc ht0 hb
    simp only [occlusionTick, hd, hocc, hb]
    simp only [Bool.false_eq_true, if_false, if_true, runStart_some t0 now ht0]
    split_ifs <;> simp [trig_occ]
  · intro cfg env s now frame hd hb
    simp [occlusionTick, hd, hb]
  · intro cfg env s t0 now frame hd hocc ht0 hb hle
    obtain ⟨h1, h2⟩ := occlusionTick_continue cfg env s t0 now frame hd hocc ht0 hb hle
    exact ⟨h2, by rw [h1]; exact hd⟩
  · intro env sys t0 f0 rest hocc ht0 hd hm hs hc hθ hb
    exact camRun_fresh env t0 f0 rest sys hocc ht0 hd hm hs hc hθ hb

/-- C5 witness: from a fresh monitoring state, two all-black (blocked)
ticks at 1 ms and 4001 ms mean the run escalates (4000 > 3000), and the
record/keep/reset and no-early-escalation single-tick facts at concrete
inputs with run start 7. -/
theorem claim5_witness :
    ((occlusionTick defaultConfig envA
        { initialState 0 with monitoringActive := true } 7 frameBlack).1.occlusionStart =
      some 7) ∧
    ((occlusionTick defaultConfig envA
        { initialState 0 with monitoringActive := true, occlusionStart := some 7 }
        900 frameBlack).1.occlusionStart = some 7) ∧
    ((occlusionTick defaultConfig envA
        { initialState 0 with monitoringActive := true, occlusionStart := some 7 }
        900 frameClear).1.occlusionStart = none) ∧
    (revocations (occlusionTick defaultConfig envA
        { initialState 0 with monitoringActive := true, occlusionStart := some 7 }
        900 frameBlack).2 = []) ∧
    (revocations (run envA
        { init "f" "/d" "/h" false 0 with
            st := { initialState 0 with monitoringActive := true },
            camRunning := true }
        ([((1 : Int), frameBlack), ((4001 : Int), frameBlack)].map
          fun p => Input.camTick p.1 p.2)).2 ≠ [] ↔
      ∃ p ∈ [((4001 : Int), frameBlack)],
        p.1 - 1 > (init "f" "/d" "/h" false 0).cfg.occlusionThreshold) := by
  have hblack : frameBlocked frameBlack = true := by
    simp [frameBlocked, frameMean, frameVar, frameBlack, gray, sampleEvery4,
      lumStats, luminance]
  have hclear : frameBlocked frameClear = false := by
    norm_num [frameBlocked, frameMean, frameVar, frameClear, spread4, gray,
      sampleEvery4, lumStats, luminance]
  refine ⟨?_, ?_, ?_, ?_, ?_⟩
  · exact claim5_occlusion_hysteresis.1 defaultConfig envA
      { initialState 0 with monitoringActive := true } 7 frameBlack rfl rfl hblack
  · exact claim5_occlusion_hysteresis.2.1 defaultConfig envA
      { initialState 0 with monitoringActive := true, occlusionStart := some 7 }
      7 900 frameBlack rfl rfl (by decide) hblack
  · exact claim5_occlusion_hysteresis.2.2.1 defaultConfig envA
      { initialState 0 with monitoringActive := true, occlusionStart := some 7 }
      900 frameClear rfl hclear
  · exact (claim5_occlusion_hysteresis.2.2.2.1 defaultConfig envA
      { initialState 0 with monitoringActive := true, occlusionStart := some 7 }
      7 900 frameBlack rfl rfl (by decide) hblack (by decide)).1
  · exact claim5_occlusion_hysteresis.2.2.2.2 envA
      { init "f" "/d" "/h" false 0 with
          st := { initialState 0 with monitoringActive := true },
          camRunning := true }
      1 frameBlack [((4001 : Int), frameBlack)] rfl (by decide) rfl rfl rfl rfl
      (by decide)
      (by
        intro p hp
        simp only [List.mem_cons, List.not_mem_nil, or_false] at hp
        rcases hp with h | h <;> rw [h] <;> exact hblack)

/-- C6 counterexample: with the recorded run start at the clock value 0 and
a blocked frame at 2000 ms — duration from the run start 2000 ms, inside
the claimed warning window (1000, 3000) — line 284 treats the stored 0 as
falsy and re-stamps the start to 2000, so the computed duration is 0: no
red-border warning is emitted and the run timer is not kept, refuting the
claim as stated over all tick sequences. -/
theorem claim6_counterexample :
    frameBlocked frameBlack = true ∧
    ((1000 : Int) < 2000 - 0 ∧ (2000 : Int) - 0 < 3000) ∧
    Effect.borderRed ∉ (occlusionTick defaultConfig envA
        { initialState 0 with monitoringActive := true, occlusionStart := some 0 }
        2000 frameBlack).2 ∧
    (occlusionTick defaultConfig envA
        { initialState 0 with monitoringActive := true, occlusionStart := some 0 }
        2000 frameBlack).1.occlusionStart = some 2000 := by
  have hblack : frameBlocked frameBlack = true := by
    simp [frameBlocked, frameMean, frameVar, frameBlack, gray, sampleEvery4,
      lumStats, luminance]
  refine ⟨hblack, by decide, ?_, ?_⟩ <;>
    simp [occlusionTick, runStart, occlusionFalsy, hblack, defaultConfig,
      initialState]

/-- C6 (amended): on a sampling tick whose blocked-run duration lies
strictly between 1000 ms and the occlusion threshold (3000 ms — the only
value the code's initializers ever leave in the config), provided the
recorded run start is nonzero (real `Date.now()` values are positive; a 0
start is JS-falsy and re-stamped), the monitor surfaces the red-border
warning without escalating and without leaving the run; on a clear frame it
clears both the warning (border reset) and the run timer. -/
theorem claim6_occlusion_warning (cfg : Config) (env : Env) (s : MState)
    (st now : Int) (f fc : List Pixel)
    (hθ : cfg.occlusionThreshold = 3000) (hd : s.destroyed = false)
    (hocc : s.occlusionStart = some st) (ht0 : st ≠ 0)
    (hb : frameBlocked f = true)
    (h1 : 1000 < now - st) (h2 : now - st < 3000) :
    (Effect.borderRed ∈ (occlusionTick cfg env s now f).2 ∧
      revocations (occlusionTick cfg env s now f).2 = [] ∧
      (occlusionTick cfg env s now f).1.destroyed = false ∧
      (occlusionTick cfg env s now f).1.occlusionStart = some st) ∧
    (frameBlocked fc = false →
      (occlusionTick cfg env s now fc).1.occlusionStart = none ∧
      Effect.borderNone ∈ (occlusionTick cfg env s now fc).2) := by
  have hle : ¬(now - st > cfg.occlusionThreshold) := by omega
  obtain ⟨hc1, hc2⟩ := occlusionTick_continue cfg env s st now f hd hocc ht0 hb hle
  constructor
  · refine ⟨?_, hc2, by rw [hc1]; exact hd, by rw [hc1]; exact hocc⟩
    simp only [occlusionTick, hd, hocc, hb]
    simp only [Bool.false_eq_true, if_false, if_true, runStart_some st now ht0]
    rw [if_pos ⟨h1, h2⟩, if_neg (by rw [hθ]; omega)]
    simp
  · intro hcl
    constructor
    · simp [occlusionTick, hd, hcl]
    · simp [occlusionTick, hd, hcl]

/-- C6 witness: a blocked tick 2000 ms into a run recorded at 7 ms warns
without escalating, and a clear tick resets warning and timer. -/
theorem claim6_witness :
    (Effect.borderRed ∈ (occlusionTick defaultConfig envA
        { initialState 0 with monitoringActive := true, occlusionStart := some 7 }
        2007 frameBlack).2 ∧
      revocations (occlusionTick defaultConfig envA
        { initialState 0 with monitoringActive := true, occlusionStart := some 7 }
        2007 frameBlack).2 = [] ∧
      (occlusionTick defaultConfig envA
        { initialState 0 with monitoringActive := true, occlusionStart := some 7 }
        2007 frameBlack).1.destroyed = false ∧
      (occlusionTick defaultConfig envA
        { initialState 0 with monitoringActive := true, occlusionStart := some 7 }
        2007 frameBlack).1.occlusionStart = some 7) ∧
    (frameBlocked frameClear = false →
      (occlusionTick defaultConfig envA
        { initialState 0 with monitoringActive := true, occlusionStart := some 7 }
        2007 frameClear).1.occlusionStart = none ∧
      Effect.borderNone ∈ (occlusionTick defaultConfig envA
        { initialState 0 with monitoringActive := true, occlusionStart := some 7 }
        2007 frameClear).2) :=
  claim6_occlusion_warning defaultConfig envA
    { initialState 0 with monitoringActive := true, occlusionStart := some 7 }
    7 2007 frameBlack frameClear rfl rfl rfl (by decide)
    (by simp [frameBlocked, frameMean, frameVar, frameBlack, gray, sampleEvery4,
      lumStats, luminance])
    (by decide) (by decide)

/-- C7: idle-timeout semantics. A 1-second-cadence idle tick escalates with
the idle reason exactly when the elapsed time since `lastActivity` exceeds
the configured idle timeout (and the guards pass); a tick within the
timeout is an exact no-op; every activity-marking event updates
`lastActivity` to the current instant, so repeated activity postpones
escalation indefinitely; and with idle detection disabled by configuration
the idle escalation never fires on any input sequence. -/
theorem claim7_idle_timeout :
    (∀ (env : Env) (sys : Sys) (now : Int),
        sys.idleRunning = true →
        now - sys.st.lastActivity > sys.cfg.idleTimeout →
        sys.st.destroyed = false → sys.st.monitoringActive = true →
        sys.st.submitting = false →
        revocations (step env sys (Input.idleTick now)).2 = ["Idle Timeout (6s)"] ∧
          (step env sys (Input.idleTick now)).1.st.destroyed = true) ∧
    (∀ (env : Env) (sys : Sys) (now : Int),
        now - sys.st.lastActivity ≤ sys.cfg.idleTimeout →
        step env sys (Input.idleTick now) = (sys, [])) ∧
    (∀ (s : MState) (now : Int), (resetIdle s now).lastActivity = now) ∧
    (∀ (env : Env) (sys : Sys) (now : Int) (ke : KeyE),
        (step env sys (Input.ev now Event.mousemove)).1.st.lastActivity = now ∧
        (step env sys (Input.ev now Event.mousedown)).1.st.lastActivity = now ∧
        (step env sys (Input.ev now (Event.keydown ke))).1.st.lastActivity = now) ∧
    (∀ (env : Env) (fid du hu : String) (now0 : Int) (is : List Input),
        (init fid du hu true now0).idleRunning = false ∧
        "Idle Timeout (6s)" ∉ revocations (run env (init fid du hu true now0) is).2) := by
  refine ⟨?_, ?_, ?_, ?_, ?_⟩
  · intro env sys now hr hgt hd hm hs
    have hf := trig_fire sys.cfg env sys.st "Idle Timeout (6s)" hd hm hs
    constructor
    · simp only [step]
      rw [if_pos hr]
      simp only [idleCheckTick]
      rw [if_pos hgt]
      exact hf.2
    · simp only [step]
      rw [if_pos hr]
      simp only [idleCheckTick]
      rw [if_pos hgt]
      simp [hf.1]
  · intro env sys now h
    exact step_idleTick_quiet env sys now h
  · intro s now
    rfl
  · intro env sys now ke
    refine ⟨rfl, rfl, rfl⟩
  · intro env fid du hu now0 is
    exact ⟨rfl, run_no_idle_reason env (init fid du hu true now0) is rfl⟩

/-- C7 witness: an over-timeout tick destroys with the idle reason on a
monitoring state; a within-timeout tick is a no-op; activity at instant 42
sets `lastActivity` to 42; and with idle disabled no idle revocation occurs
on a trace containing an over-timeout idle tick. -/
theorem claim7_witness :
    (revocations (step envA
        { init "f" "/d" "/h" false 0 with
            st := { initialState 0 with monitoringActive := true } }
        (Input.idleTick 7000)).2 = ["Idle Timeout (6s)"] ∧
      (step envA
        { init "f" "/d" "/h" false 0 with
            st := { initialState 0 with monitoringActive := true } }
        (Input.idleTick 7000)).1.st.destroyed = true) ∧
    step envA (init "f" "/d" "/h" false 0) (Input.idleTick 5000) =
      (init "f" "/d" "/h" false 0, []) ∧
    (resetIdle (initialState 0) 42).lastActivity = 42 ∧
    (step envA (init "f" "/d" "/h" false 0)
        (Input.ev 42 Event.mousemove)).1.st.lastActivity = 42 ∧
    (init "f" "/d" "/h" true 0).idleRunning = false ∧
    "Idle Timeout (6s)" ∉
      revocations (run envA (init "f" "/d" "/h" true 0) [Input.idleTick 9999]).2 :=
  ⟨claim7_idle_timeout.1 envA
      { init "f" "/d" "/h" false 0 with
          st := { initialState 0 with monitoringActive := true } }
      7000 rfl (by decide) rfl rfl rfl,
   claim7_idle_timeout.2.1 envA (init "f" "/d" "/h" false 0) 5000 (by decide),
   claim7_idle_timeout.2.2.1 (initialState 0) 42,
   (claim7_idle_timeout.2.2.2.1 envA (init "f" "/d" "/h" false 0) 42
      ⟨"a", false, false, false⟩).1,
   (claim7_idle_timeout.2.2.2.2 envA "f" "/d" "/h" 0 [Input.idleTick 9999]).1,
   (claim7_idle_timeout.2.2.2.2 envA "f" "/d" "/h" 0 [Input.idleTick 9999]).2⟩

/-- C8: every qualifying invocation of the revocation sequence attempts
both notification deliveries to the revocation endpoint — the fire-and-
forget beacon (when the browser exposes the beacon transport) and the
standard keepalive request carrying the page's CSRF token — and ends with
the redirect to the configured safe-landing location; the environment's
fetch outcome `env.fetchOk` is universally quantified, so the redirect
happens whether the delivery succeeded or failed. -/
theorem claim8_revocation_deliveries (cfg : Config) (env : Env) (s : MState)
    (r : String) (hd : s.destroyed = false) (hm : s.monitoringActive = true)
    (hs : s.submitting = false) (hb : env.hasBeacon = true) :
    Effect.beaconSend cfg.destroyUrl r ∈ (triggerDestruction cfg env s r).2 ∧
    Effect.fetchDestroy cfg.destroyUrl env.csrf r env.fetchOk ∈
      (triggerDestruction cfg env s r).2 ∧
    (triggerDestruction cfg env s r).2.getLast? =
      some (Effect.redirect cfg.homeUrl) := by
  cases hcs : s.cameraStream <;>
    simp [triggerDestruction, hd, hm, hs, hb, hcs, List.getLast?]

/-- C8 witness: applied at a live monitoring state in two environments
whose destroy fetch succeeds and fails respectively: both deliveries are
attempted and the redirect is last either way. -/
theorem claim8_witness :
    (Effect.beaconSend (some "/d") "Clipboard Copy" ∈
        (triggerDestruction { defaultConfig with destroyUrl := some "/d", homeUrl := some "/h" }
          ⟨true, some "token", false⟩
          { initialState 0 with monitoringActive := true } "Clipboard Copy").2 ∧
      Effect.fetchDestroy (some "/d") (some "token") "Clipboard Copy" false ∈
        (triggerDestruction { defaultConfig with destroyUrl := some "/d", homeUrl := some "/h" }
          ⟨true, some "token", false⟩
          { initialState 0 with monitoringActive := true } "Clipboard Copy").2 ∧
      (triggerDestruction { defaultConfig with destroyUrl := some "/d", homeUrl := some "/h" }
          ⟨true, some "token", false⟩
          { initialState 0 with monitoringActive := true } "Clipboard Copy").2.getLast? =
        some (Effect.redirect (some "/h"))) ∧
    (Effect.fetchDestroy (some "/d") (some "token") "Clipboard Copy" true ∈
        (triggerDestruction { defaultConfig with destroyUrl := some "/d", homeUrl := some "/h" }
          ⟨true, some "token", true⟩
          { initialState 0 with monitoringActive := true } "Clipboard Copy").2 ∧
      (triggerDestruction { defaultConfig with destroyUrl := some "/d", homeUrl := some "/h" }
          ⟨true, some "token", true⟩
          { initialState 0 with monitoringActive := true } "Clipboard Copy").2.getLast? =
        some (Effect.redirect (some "/h"))) :=
  ⟨claim8_revocation_deliveries
      { defaultConfig with destroyUrl := some "/d", homeUrl := some "/h" }
      ⟨true, some "token", false⟩
      { initialState 0 with monitoringActive := true } "Clipboard Copy" rfl rfl rfl rfl,
   ⟨(claim8_revocation_deliveries
      { defaultConfig with destroyUrl := some "/d", homeUrl := some "/h" }
      ⟨true, some "token", true⟩
      { initialState 0 with monitoringActive := true } "Clipboard Copy" rfl rfl rfl rfl).2.1,
    (claim8_revocation_deliveries
      { defaultConfig with destroyUrl := some "/d", homeUrl := some "/h" }
      ⟨true, some "token", true⟩
      { initialState 0 with monitoringActive := true } "Clipboard Copy" rfl rfl rfl rfl).2.2⟩⟩

/-- C9: once `destroyed` is true the state is terminal: an occlusion tick
and an idle tick are exact no-ops, `sendAlert` performs no delivery, and
any further input sequence produces no effect at all — in particular no
revocation, no alert, and no touch of the released capture stream — while
`destroyed` stays true. -/
theorem claim9_destroyed_terminal (env : Env) (sys : Sys)
    (h : sys.st.destroyed = true) :
    (∀ (now : Int) (frame : List Pixel),
        step env sys (Input.camTick now frame) = (sys, [])) ∧
    (∀ now : Int, step env sys (Input.idleTick now) = (sys, [])) ∧
    (∀ k r : String, sendAlert sys.cfg sys.st k r = []) ∧
    (∀ is : List Input,
        (run env sys is).2 = [] ∧ (run env sys is).1.st.destroyed = true) := by
  refine ⟨?_, ?_, ?_, ?_⟩
  · intro now frame
    by_cases hr : sys.camRunning = true
    · simp only [step]
      rw [if_pos hr, occlusionTick_destroyed sys.cfg env sys.st now frame h]
    · simp [step, hr]
  · intro now
    by_cases hr : sys.idleRunning = true
    · simp only [step]
      rw [if_pos hr, idleCheckTick_destroyed sys.cfg env sys.st now h]
    · simp [step, hr]
  · intro k r
    simp [sendAlert, h]
  · intro is
    exact run_destroyed env sys is h

/-- C9 witness: a concrete destroyed system where a camera tick, an idle
tick, an alert and a whole input trace all have no effect. -/
theorem claim9_witness :
    ({ init "f" "/d" "/h" false 0 with
        st := { initialState 0 with destroyed := true } } : Sys).st.destroyed = true ∧
    step envA
      { init "f" "/d" "/h" false 0 with
          st := { initialState 0 with destroyed := true } }
      (Input.camTick 100 frameBlack) =
      ({ init "f" "/d" "/h" false 0 with
          st := { initialState 0 with destroyed := true } }, []) ∧
    step envA
      { init "f" "/d" "/h" false 0 with
          st := { initialState 0 with destroyed := true } }
      (Input.idleTick 99999) =
      ({ init "f" "/d" "/h" false 0 with
          st := { initialState 0 with destroyed := true } }, []) ∧
    sendAlert (init "f" "/d" "/h" false 0).cfg
      { initialState 0 with destroyed := true } "screenshot" "PrintScreen Key" = [] ∧
    (run envA
      { init "f" "/d" "/h" false 0 with
          st := { initialState 0 with destroyed := true } }
      [Input.ev 1 Event.copyEvt, Input.idleTick 99999]).2 = [] :=
  ⟨rfl,
   (claim9_destroyed_terminal envA
      { init "f" "/d" "/h" false 0 with
          st := { initialState 0 with destroyed := true } } rfl).1 100 frameBlack,
   (claim9_destroyed_terminal envA
      { init "f" "/d" "/h" false 0 with
          st := { initialState 0 with destroyed := true } } rfl).2.1 99999,
   (claim9_destroyed_terminal envA
      { init "f" "/d" "/h" false 0 with
          st := { initialState 0 with destroyed := true } } rfl).2.2.1
     "screenshot" "PrintScreen Key",
   ((claim9_destroyed_terminal envA
      { init "f" "/d" "/h" false 0 with
          st := { initialState 0 with destroyed := true } } rfl).2.2.2
     [Input.ev 1 Event.copyEvt, Input.idleTick 99999]).1⟩

/-- C10: `initVerification` starts neither the idle interval nor the
sampling interval, and leaves `monitoringActive` false; along any input
sequence that never contains the camera-grant resolution,
`monitoringActive` stays false, the state never becomes destroyed, and no
revocation occurs — so every threat report (keyboard shortcut, clipboard
copy, PrintScreen, ...) before camera consent is a no-op. -/
theorem claim10_verification_pre_consent (env : Env) (fid du hu : String)
    (now0 : Int) :
    (initVerification fid du hu now0).idleRunning = false ∧
    (initVerification fid du hu now0).camRunning = false ∧
    (initVerification fid du hu now0).st.monitoringActive = false ∧
    (∀ is : List Input, Input.cameraGranted ∉ is →
        (run env (initVerification fid du hu now0) is).1.st.monitoringActive = false ∧
        (run env (initVerification fid du hu now0) is).1.st.destroyed = false ∧
        revocations (run env (initVerification fid du hu now0) is).2 = []) := by
  refine ⟨rfl, rfl, rfl, ?_⟩
  intro is hg
  obtain ⟨h1, h2, h3⟩ := run_monact env (initVerification fid du hu now0) is rfl hg
  exact ⟨h1, h2, h3⟩

/-- C10 witness: on the verification page before camera consent, a trace of
clipboard-copy, PrintScreen and Ctrl+S events leaves the monitor inactive,
not destroyed, and produces no revocation. -/
theorem claim10_witness :
    (initVerification "f" "/d" "/h" 0).idleRunning = false ∧
    (initVerification "f" "/d" "/h" 0).camRunning = false ∧
    (run envA (initVerification "f" "/d" "/h" 0)
        [Input.ev 1 Event.copyEvt,
         Input.ev 2 (Event.keyup ⟨"PrintScreen", false, false, false⟩),
         Input.ev 3 (Event.keydown ⟨"s", true, false, false⟩)]).1.st.monitoringActive =
      false ∧
    (run envA (initVerification "f" "/d" "/h" 0)
        [Input.ev 1 Event.copyEvt,
         Input.ev 2 (Event.keyup ⟨"PrintScreen", false, false, false⟩),
         Input.ev 3 (Event.keydown ⟨"s", true, false, false⟩)]).1.st.destroyed =
      false ∧
    revocations (run envA (initVerification "f" "/d" "/h" 0)
        [Input.ev 1 Event.copyEvt,
         Input.ev 2 (Event.keyup ⟨"PrintScreen", false, false, false⟩),
         Input.ev 3 (Event.keydown ⟨"s", true, false, false⟩)]).2 = [] :=
  ⟨(claim10_verification_pre_consent envA "f" "/d" "/h" 0).1,
   (claim10_verification_pre_consent envA "f" "/d" "/h" 0).2.1,
   ((claim10_verification_pre_consent envA "f" "/d" "/h" 0).2.2.2
      [Input.ev 1 Event.copyEvt,
       Input.ev 2 (Event.keyup ⟨"PrintScreen", false, false, false⟩),
       Input.ev 3 (Event.keydown ⟨"s", true, false, false⟩)] (by simp)).1,
   ((claim10_verification_pre_consent envA "f" "/d" "/h" 0).2.2.2
      [Input.ev 1 Event.copyEvt,
       Input.ev 2 (Event.keyup ⟨"PrintScreen", false, false, false⟩),
       Input.ev 3 (Event.keydown ⟨"s", true, false, false⟩)] (by simp)).2.1,
   ((claim10_verification_pre_consent envA "f" "/d" "/h" 0).2.2.2
      [Input.ev 1 Event.copyEvt,
       Input.ev 2 (Event.keyup ⟨"PrintScreen", false, false, false⟩),
       Input.ev 3 (Event.keydown ⟨"s", true, false, false⟩)] (by simp)).2.2⟩

end Encra
